import Mathlib

/-!
Verification of the Handwritten-Document-Scanner worker core.

This file is a shallow embedding, in Lean 4, of the rate-limited job
dispatch system implemented in `worker.py`, `queueManager.py` and
`api.py` of the repository.  Python functions become Lean functions;
the shared Redis key/value store becomes an explicit `RedisState`
record that the operations thread through; wall-clock time is an
explicit `Nat` (seconds) parameter; external effects (the Gemini API,
the PDF renderer, the broker publish) are oracles passed in as values.

Conventions:
* `_shortKey` in the source derives a Redis key from a non-cryptographic
  hash of the credential string; here a credential is identified by the
  string itself (an injective stable identifier), so counter entries are
  keyed by the pair (credential, bucket) and cooldown entries by the
  credential.
* Redis `SET k v EX d` at time `t` is modelled as recording the expiry
  `t + d`; a subsequent `GET` at time `now` sees the value iff `now`
  is strictly before the expiry.
* The `EXPIRE` placed on a counter bucket key (worker.py:128) only
  reclaims memory of past buckets and is not modelled: every counter key
  already carries its bucket index, so expiry never changes the value any
  in-window operation reads.
-/

/-- Rate-limit configuration read from the environment in worker.py:56-58
(`PER_KEY_LIMIT`, `WINDOW_SECONDS`, `COOLDOWN_SECONDS`). -/
structure RateConfig where
  perKeyLimit : Nat
  windowSeconds : Nat
  cooldownSeconds : Nat
  deriving Repr, DecidableEq

/-- The environment defaults of worker.py:56-58. -/
def defaultConfig : RateConfig := { perKeyLimit := 85, windowSeconds := 60, cooldownSeconds := 75 }

/-- The part of the shared Redis store touched by the rate limiter:
per-(credential, bucket) counters (`handwritten:cnt:*`, worker.py:103-104)
and cooldown entries with their absolute expiry time
(`handwritten:cd:*`, worker.py:106-107). -/
structure RedisState where
  counters : String × Nat → Nat
  cooldownExpiry : String → Option Nat

/-- `redis_conn.get(self._cooldownKey(key))` truthiness (worker.py:122):
the cooldown value is visible iff the current time is before its expiry. -/
def cooldownActive (st : RedisState) (key : String) (now : Nat) : Bool :=
  match st.cooldownExpiry key with
  | none => false
  | some e => decide (now < e)

/-- queueManager.py:51-60 `getNextExtractionKey`: filter the configured
key slots down to the non-empty ones, return the one at the global
round-robin cursor, and advance the cursor (the cursor is untouched when
no key is configured).  The cursor is passed and returned explicitly
here; in the source it is the module-global `extractionKeyIndex`. -/
def getNextExtractionKey (keys : List (Option String)) (idx : Nat) : Option String × Nat :=
  if (keys.filterMap id).isEmpty then (none, idx)
  else ((keys.filterMap id).get? (idx % (keys.filterMap id).length),
        (idx + 1) % (keys.filterMap id).length)

/-- worker.py:115-136 `QueueAwareAPIManager.tryAcquireKey` for the
extraction pool: fetch one credential from the round-robin rotation; if
none is configured, or the fetched credential is in cooldown, give up
with `None`; otherwise increment its current-bucket counter and compare
with the limit — within the limit the credential is returned, above the
limit a cooldown of `cooldownSeconds` is set on it and `None` is
returned.  No second candidate is ever consulted. -/
def tryAcquireKey (cfg : RateConfig) (keys : List (Option String)) (st : RedisState)
    (idx now : Nat) : Option String × RedisState × Nat :=
  match getNextExtractionKey keys idx with
  | (none, idx') => (none, st, idx')
  | (some key, idx') =>
    let bucket := now / cfg.windowSeconds
    if cooldownActive st key now then (none, st, idx')
    else
      let newCount := st.counters (key, bucket) + 1
      let st' : RedisState := { st with counters := Function.update st.counters (key, bucket) newCount }
      if newCount ≤ cfg.perKeyLimit then (some key, st', idx')
      else
        (none,
         { st' with cooldownExpiry := Function.update st'.cooldownExpiry key (some (now + cfg.cooldownSeconds)) },
         idx')

/-- worker.py:138-139 `markKeyCooldown`: force a cooldown of
`cooldownSeconds` onto a credential, independent of any counter. -/
def markKeyCooldown (cfg : RateConfig) (st : RedisState) (key : String) (now : Nat) : RedisState :=
  { st with cooldownExpiry := Function.update st.cooldownExpiry key (some (now + cfg.cooldownSeconds)) }

/-- Modelled from the spec: `allExhausted() -> bool` (spec sections 4.1 and
8), which is supposed to report whether every credential of the pool
currently has an unexpired cooldown entry.  No such operation exists in
the source (`QueueAwareAPIManager`, worker.py:65-139, has no such
method); this definition follows the spec's words and exists only to
state claim C6 against the code's actual executor behaviour. -/
def allExhaustedSpec (keys : List (Option String)) (st : RedisState) (now : Nat) : Bool :=
  (keys.filterMap id).all (fun k => cooldownActive st k now)

/-- A usable credential in the sense of the spec's `acquire()` contract:
not in cooldown, and one more increment of its current-bucket counter
would still be within the limit. -/
def usableKey (cfg : RateConfig) (st : RedisState) (key : String) (now : Nat) : Bool :=
  !cooldownActive st key now && decide (st.counters (key, now / cfg.windowSeconds) + 1 ≤ cfg.perKeyLimit)

/-- A sequence of `tryAcquireKey` operations at the given times,
threading the Redis state and the round-robin cursor. -/
def runAcquires (cfg : RateConfig) (keys : List (Option String)) :
    List Nat → RedisState × Nat → RedisState × Nat
  | [], s => s
  | t :: ts, (st, idx) =>
    let r := tryAcquireKey cfg keys st idx t
    runAcquires cfg keys ts (r.2.1, r.2.2)

/-- Invariant of bucket `b`: every credential's counter for bucket `b` is
within the limit, or it is at most limit+1 and a cooldown is set whose
expiry covers the whole remainder of bucket `b`. -/
def bucketInv (cfg : RateConfig) (b : Nat) (st : RedisState) : Prop :=
  ∀ k, st.counters (k, b) ≤ cfg.perKeyLimit
    ∨ (st.counters (k, b) ≤ cfg.perKeyLimit + 1
        ∧ ∃ e, st.cooldownExpiry k = some e ∧ (b + 1) * cfg.windowSeconds ≤ e)

lemma bucket_time_lt {W t b : Nat} (hW : 0 < W) (ht : t / W = b) : t < (b + 1) * W := by
  have : t / W < b + 1 := by omega
  exact (Nat.div_lt_iff_lt_mul hW).mp this

lemma bucket_time_ge {W t b : Nat} (ht : t / W = b) : b * W ≤ t := by
  subst ht
  exact Nat.div_mul_le_self t W

lemma tryAcquireKey_bucketInv (cfg : RateConfig) (keys : List (Option String))
    (st : RedisState) (idx t b : Nat)
    (hW : 0 < cfg.windowSeconds) (hcw : cfg.windowSeconds ≤ cfg.cooldownSeconds)
    (ht : t / cfg.windowSeconds = b) (hinv : bucketInv cfg b st) :
    bucketInv cfg b (tryAcquireKey cfg keys st idx t).2.1 := by
  unfold tryAcquireKey
  rcases hsel : getNextExtractionKey keys idx with ⟨k?, idx'⟩
  cases k? with
  | none => simpa using hinv
  | some k0 =>
    simp only
    by_cases hcd : cooldownActive st k0 t
    · simpa [hcd] using hinv
    · have hk0 : st.counters (k0, b) ≤ cfg.perKeyLimit := by
        rcases hinv k0 with h | ⟨_, e, he, hbe⟩
        · exact h
        · exfalso
          have hlt : t < e := lt_of_lt_of_le (bucket_time_lt hW ht) hbe
          have : cooldownActive st k0 t = true := by
            simp [cooldownActive, he, hlt]
          exact hcd this
      simp only [hcd, if_false, ht]
      by_cases hle : st.counters (k0, b) + 1 ≤ cfg.perKeyLimit
      · simp only [hle, if_true]
        intro k
        by_cases hk : k = k0
        · subst hk
          left
          simpa [Function.update] using hle
        · have : (k, b) ≠ (k0, b) := by simp [hk]
          rcases hinv k with h | ⟨h1, e, he, hbe⟩
          · left; simpa [Function.update, this] using h
          · right; exact ⟨by simpa [Function.update, this] using h1, e, he, hbe⟩
      · simp only [hle, if_false]
        intro k
        by_cases hk : k = k0
        · subst hk
          right
          refine ⟨by simpa [Function.update] using hk0, t + cfg.cooldownSeconds, ?_, ?_⟩
          · simp [Function.update]
          · have h1 : b * cfg.windowSeconds ≤ t := bucket_time_ge ht
            have : (b + 1) * cfg.windowSeconds = b * cfg.windowSeconds + cfg.windowSeconds := by ring
            omega
        · have hne : (k, b) ≠ (k0, b) := by simp [hk]
          rcases hinv k with h | ⟨h1, e, he, hbe⟩
          · left; simpa [Function.update, hne, hk] using h
          · right
            refine ⟨by simpa [Function.update, hne] using h1, e, ?_, hbe⟩
            simpa [Function.update, hk] using he

lemma runAcquires_bucketInv (cfg : RateConfig) (keys : List (Option String))
    (ts : List Nat) (b : Nat)
    (hW : 0 < cfg.windowSeconds) (hcw : cfg.windowSeconds ≤ cfg.cooldownSeconds)
    (hts : ∀ t ∈ ts, t / cfg.windowSeconds = b) :
    ∀ st idx, bucketInv cfg b st → bucketInv cfg b (runAcquires cfg keys ts (st, idx)).1 := by
  induction ts with
  | nil => intro st idx h; simpa [runAcquires] using h
  | cons t ts ih =>
    intro st idx h
    have ht : t / cfg.windowSeconds = b := hts t (List.mem_cons_self t ts)
    have hstep := tryAcquireKey_bucketInv cfg keys st idx t b hW hcw ht h
    have hts' : ∀ u ∈ ts, u / cfg.windowSeconds = b := fun u hu => hts u (List.mem_cons_of_mem t hu)
    simpa [runAcquires] using ih hts' _ (tryAcquireKey cfg keys st idx t).2.2 hstep

/-- The possible outcomes of one `client.models.generate_content` call as
classified by worker.py:185-220: a non-empty text (returned to the
caller), an empty response (raises, classified, retried), an exception
carrying a rate-limit/quota/auth signal (the credential is put in
cooldown, then retried), or any other exception (retried). -/
inductive ApiOutcome where
  | text (s : String)
  | empty
  | rateLimited
  | otherError
  deriving Repr, DecidableEq

/-- Executor bookkeeping threaded through the retry loop: the Redis
state, the round-robin cursor, and how many semaphore slots have been
acquired and released so far. -/
structure ExecState where
  redis : RedisState
  idx : Nat
  acquires : Nat
  releases : Nat

/-- worker.py:156-230 `callGeminiSafe`, with the Redis-backed key pool
explicit and the semaphore and the external API represented by oracles
indexed by the remaining-fuel counter (`slotOk n` tells whether the
semaphore acquisition of that attempt succeeded within its timeout,
`times n` is the wall-clock second of that attempt, `api n` the API
outcome).  Each loop iteration consumes one of the `max_retries`
attempts whether or not a slot or a credential was obtained; a `text`
outcome returns immediately (the inner `finally` releases the slot); all
other outcomes sleep and retry.  This model covers the paths in which
the key-acquisition step itself does not raise; `callGeminiSafeSlots`
below covers that remaining path. -/
def callGeminiSafeRL (cfg : RateConfig) (keys : List (Option String))
    (slotOk : Nat → Bool) (api : Nat → ApiOutcome) (times : Nat → Nat) :
    Nat → ExecState → Option String × ExecState
  | 0, s => (none, s)
  | n + 1, s =>
    if slotOk n then
      match tryAcquireKey cfg keys s.redis s.idx (times n) with
      | (none, st', idx') =>
        callGeminiSafeRL cfg keys slotOk api times n
          ⟨st', idx', s.acquires + 1, s.releases + 1⟩
      | (some k, st', idx') =>
        match api n with
        | ApiOutcome.text t => (some t, ⟨st', idx', s.acquires + 1, s.releases + 1⟩)
        | ApiOutcome.empty =>
          callGeminiSafeRL cfg keys slotOk api times n
            ⟨st', idx', s.acquires + 1, s.releases + 1⟩
        | ApiOutcome.otherError =>
          callGeminiSafeRL cfg keys slotOk api times n
            ⟨st', idx', s.acquires + 1, s.releases + 1⟩
        | ApiOutcome.rateLimited =>
          callGeminiSafeRL cfg keys slotOk api times n
            ⟨markKeyCooldown cfg st' k (times n), idx', s.acquires + 1, s.releases + 1⟩
    else
      callGeminiSafeRL cfg keys slotOk api times n s

/-- What the key-acquisition step of one attempt did, seen from the
slot-accounting skeleton: it produced a credential, it returned `None`,
or it raised (worker.py:171 sits inside the outer `try` of line 170 but
before the inner `try`/`finally` of lines 178-223, so an exception from
it reaches the bare `except`/`pass` of lines 225-227 without any
`releaseSlot`). -/
inductive KeyStep where
  | gotKey
  | noKey
  | keyRaise
  deriving Repr, DecidableEq

/-- One attempt of the retry loop as seen by the slot accounting:
whether the semaphore was obtained, what the key-acquisition step did,
and — when a key was obtained — whether the guarded API call returned
text (`apiReturns = true`, the call returns) or failed (retry). -/
structure AttemptSpec where
  slotOk : Bool
  keyStep : KeyStep
  apiReturns : Bool
  apiText : String
  deriving Repr, DecidableEq

/-- The control-flow skeleton of worker.py:156-230 `callGeminiSafe`
restricted to semaphore-slot accounting, with every sub-operation an
oracle so that the exception path of the key-acquisition step is
expressible.  Returns (result, total slot acquires, total slot
releases).  Release points in the source: worker.py:173 (no key),
worker.py:222-223 (the inner `finally`, covering both the return and
every retry of the guarded call).  The `keyRaise` branch reaches
worker.py:225-227, which swallows the exception without releasing. -/
def callGeminiSafeSlots (o : Nat → AttemptSpec) : Nat → Nat × Nat → Option String × Nat × Nat
  | 0, ar => (none, ar)
  | n + 1, (a, r) =>
    if (o n).slotOk then
      match (o n).keyStep with
      | KeyStep.noKey => callGeminiSafeSlots o n (a + 1, r + 1)
      | KeyStep.keyRaise => callGeminiSafeSlots o n (a + 1, r)
      | KeyStep.gotKey =>
        if (o n).apiReturns then (some (o n).apiText, a + 1, r + 1)
        else callGeminiSafeSlots o n (a + 1, r + 1)
    else
      callGeminiSafeSlots o n (a, r)

/-- worker.py:312 — the placeholder returned when extraction got no
usable response from the API. -/
def unreadableSentinel : String := "[UNREADABLE OR API FAILURE]"

/-- worker.py:427 — the result string a caught job-body exception is
converted to. -/
def fatalWorkerError (e : String) : String := "FATAL_WORKER_ERROR: " ++ e

/-- worker.py:292-318 `extractTextFromImageBytes`, as a function of the
outcome of its `callGeminiSafe` call (`none` = all retries failed): a
missing response becomes the unreadable sentinel; any text is returned
as-is (the source's `elif`/`else` on lines 313-318 differ only in what
they log, both return `txt`).  The image resizing and base64 encoding on
lines 295-300 do not affect the returned text and are not modelled. -/
def extractTextFromImageBytes (api : Option String) : String :=
  match api with
  | none => unreadableSentinel
  | some txt => txt

/-- worker.py:387 — the delimiter block appended for one PDF page. -/
def pageBlock (fileName : String) (pno : Nat) (txt : String) : String :=
  "--- " ++ fileName ++ " | page " ++ toString pno ++ " ---\n" ++ txt ++ "\n\n"

/-- worker.py:384-388 — the page loop: pages are numbered from 1
(worker.py:261) and their blocks concatenated in order. -/
def extractPdfText (fileName : String) (pages : List (Option String)) : String :=
  String.join (pages.enum.map (fun p => pageBlock fileName (p.1 + 1) (extractTextFromImageBytes p.2)))

/-- worker.py:398 — the success test of the single-image branch: text
non-empty, not starting with `[UNREADABLE`, and longer than 10
characters once stripped. -/
def imageExtractSuccess (txt : String) : Bool :=
  !(txt == "") && !(txt.startsWith "[UNREADABLE") && decide (10 < txt.trim.length)

/-- Python's `x or default` for an optional string produced by
`callGeminiSafe`: `None` and the empty string are falsy. -/
def pyOrStr (v : Option String) (dflt : String) : String :=
  match v with
  | none => dflt
  | some s => if s == "" then dflt else s

/-- One character of Python's `json.dumps` string escaping (quotes and
backslashes; control characters do not occur in the claims'
scenarios and are not modelled). -/
def jsonEscapeChar (c : Char) : String :=
  if c == '"' || c == '\\' then "\\" ++ c.toString else c.toString

/-- A JSON string literal as produced by `json.dumps`. -/
def jsonStr (s : String) : String :=
  "\"" ++ String.join (s.data.map jsonEscapeChar) ++ "\""

/-- worker.py:413-416 — `json.dumps({"formatted_text": ..., "summary_text": ...})`
(Python preserves the insertion order of the two entries). -/
def jsonDumpsFormat (formatted summary : String) : String :=
  "\x7b\"formatted_text\": " ++ jsonStr formatted ++ ", \"summary_text\": " ++ jsonStr summary ++ "\x7d"

/-- worker.py:420 — `json.dumps({"error": "unknown_job_type"})`. -/
def jsonUnknownJobType : String := "\x7b\"error\": \"unknown_job_type\"\x7d"

/-- One serialized upload file as read by the extract branch
(worker.py:363-364): `f.get("mime_type", "image/png")` and
`f.get("data_b64")`. -/
structure FileData where
  mimeType : Option String
  dataB64 : Option String
  deriving Repr, DecidableEq

/-- The job payload: a list of serialized files for extract jobs, raw
text for format jobs (api.py enqueues exactly these shapes). -/
inductive Payload where
  | files (fs : List FileData)
  | text (raw : String)
  deriving Repr, DecidableEq

/-- The job metadata dict (worker.py:347-349 reads `user_id`,
`file_name` and `job_type` with defaults). -/
structure Metadata where
  userId : Option String
  fileName : Option String
  jobType : Option String
  deriving Repr, DecidableEq

/-- The external-call outcomes one job consumes: the per-page extraction
API results of a rendered PDF (`[]` = `renderPdfToImages` failed or the
PDF had no pages), the single-image extraction API result, and the
format/summarize API results (`none` = `callGeminiSafe` exhausted its
retries). -/
structure JobOracle where
  pdfPages : List (Option String)
  imageApi : Option String
  formatApi : Option String
  summarizeApi : Option String
  deriving Repr, DecidableEq

/-- The `try:` body of worker.py:351-421 `processJob`: compute
(final_result, success) or raise.  `Except.error e` is a fault that the
`except` clause of worker.py:423-428 will catch; the explicit `fault`
argument injects such a fault (worker.py's body can raise e.g. on
malformed base64), and the two payload/branch type mismatches that
Python would turn into `AttributeError`/`TypeError` are mapped to
`Except.error` with a stand-in message (the exact Python message is not
modelled). -/
def processBody (jobType : String) (payload : Payload) (fileName : String) (o : JobOracle)
    (fault : Option String) : Except String (String × Bool) :=
  match fault with
  | some e => Except.error e
  | none =>
    if jobType == "extract" then
      match payload with
      | Payload.text s =>
        if s == "" then Except.ok ("ERROR: No file data provided", false)
        else Except.error "AttributeError"
      | Payload.files [] => Except.ok ("ERROR: No file data provided", false)
      | Payload.files (f :: _) =>
        let mime := f.mimeType.getD "image/png"
        match f.dataB64 with
        | none => Except.ok ("ERROR: No data for " ++ fileName, false)
        | some d =>
          if d == "" then Except.ok ("ERROR: No data for " ++ fileName, false)
          else if mime == "application/pdf" || fileName.toLower.endsWith ".pdf" then
            match o.pdfPages with
            | [] => Except.ok ("--- " ++ fileName ++ " | PDF FAILURE: NO PAGES EXTRACTED ---\n\n", false)
            | ps => Except.ok (extractPdfText fileName ps, true)
          else
            let txt := extractTextFromImageBytes o.imageApi
            Except.ok ("--- " ++ fileName ++ " ---\n" ++ txt ++ "\n\n", imageExtractSuccess txt)
    else if jobType == "format" then
      match payload with
      | Payload.text raw =>
        let formatted := pyOrStr o.formatApi raw
        let summary := pyOrStr o.summarizeApi ""
        Except.ok (jsonDumpsFormat formatted summary, true)
      | Payload.files _ => Except.error "TypeError"
    else
      Except.ok (jsonUnknownJobType, false)

/-- The completion message published on the `job_completions` channel
(worker.py:275-283). -/
structure CompletionEvent where
  jobId : String
  jobType : String
  userId : String
  fileName : String
  success : Bool
  result : String
  timestamp : Nat
  deriving Repr, DecidableEq

/-- worker.py:269-289 `notifyJobCompletion`: publish one event on the
broker; the whole body sits in a `try`/`except` that logs and swallows
any publish failure, so the function itself never raises and publishes
nothing when the broker call fails (`publishOk = false`). -/
def notifyJobCompletion (ev : CompletionEvent) (publishOk : Bool) : List CompletionEvent :=
  if publishOk then [ev] else []

/-- worker.py:331-443 `processJob`: resolve the job id (`UNKNOWN_JOB`
when no ambient job, worker.py:337-343) and the metadata defaults
(worker.py:347-349); run the body; a caught fault becomes
(`FATAL_WORKER_ERROR: ...`, success = false) (worker.py:423-428); the
`finally` block publishes exactly one completion event built from the
metadata job type and returns `final_result` (worker.py:430-443).
Returns (the returned result, the list of published events). -/
def processJob (job : Option String) (jobType : String) (payload : Payload) (meta : Metadata)
    (o : JobOracle) (fault : Option String) (publishOk : Bool) (now : Nat) :
    String × List CompletionEvent :=
  let jobId := job.getD "UNKNOWN_JOB"
  let userId := meta.userId.getD "unknown"
  let fileName := meta.fileName.getD "unknown"
  let metaJobType := meta.jobType.getD jobType
  let rs : String × Bool :=
    match processBody jobType payload fileName o fault with
    | Except.ok rs => rs
    | Except.error e => (fatalWorkerError e, false)
  (rs.1, notifyJobCompletion ⟨jobId, metaJobType, userId, fileName, rs.2, rs.1, now⟩ publishOk)

/-- api.py:112-117 — the client-facing stage code derived from
(job_type, success) by the pub/sub listener. -/
def deriveStage (jobType : String) (success : Bool) : Nat :=
  if jobType == "extract" then (if success then 3 else 2)
  else if jobType == "format" then (if success then 5 else 4)
  else 0

/-- api.py:113 — the status string of the pushed message. -/
def deriveStatus (success : Bool) : String :=
  if success then "finished" else "failed"

/-- The composite message pushed to the user's websocket
(api.py:119-127). -/
structure ClientMessage where
  jobId : String
  fileName : String
  userId : String
  status : String
  stage : Nat
  jobType : String
  result : String
  deriving Repr, DecidableEq

/-- api.py:100-127 — how the listener turns one received completion
event into the client message. -/
def buildClientMessage (ev : CompletionEvent) : ClientMessage :=
  { jobId := ev.jobId, fileName := ev.fileName, userId := ev.userId,
    status := deriveStatus ev.success, stage := deriveStage ev.jobType ev.success,
    jobType := ev.jobType, result := ev.result }

/-- C9: for every received completion event, the listener derives the
stage code as a function of (class, success) — extract/true gives 3,
extract/false gives 2, format/true gives 5, format/false gives 4, any
other class gives 0 — and the status field of the pushed message is
`finished` when success is true and `failed` otherwise
(api.py:112-127). -/
theorem c9_stage_mapping (ev : CompletionEvent) :
    (buildClientMessage ev).status = (if ev.success then "finished" else "failed")
  ∧ (ev.jobType = "extract" → (buildClientMessage ev).stage = (if ev.success then 3 else 2))
  ∧ (ev.jobType = "format" → (buildClientMessage ev).stage = (if ev.success then 5 else 4))
  ∧ (ev.jobType ≠ "extract" → ev.jobType ≠ "format" → (buildClientMessage ev).stage = 0) := by
  refine ⟨rfl, ?_, ?_, ?_⟩
  · intro h; simp [buildClientMessage, deriveStage, h]
  · intro h; simp [buildClientMessage, deriveStage, h]
  · intro h1 h2; simp [buildClientMessage, deriveStage, h1, h2]

theorem c9_stage_mapping_witness :
    (buildClientMessage ⟨"j1", "cleanup", "u1", "doc.pdf", true, "r", 0⟩).status = "finished"
  ∧ (buildClientMessage ⟨"j1", "cleanup", "u1", "doc.pdf", true, "r", 0⟩).stage = 0 := by
  have h := c9_stage_mapping ⟨"j1", "cleanup", "u1", "doc.pdf", true, "r", 0⟩
  exact ⟨h.1, h.2.2.2 (by decide) (by decide)⟩

/-- C10: the job processor is total at its boundary — for every input it
returns the string `final_result` computed by the body (a caught body
fault being converted to a `FATAL_WORKER_ERROR` string), and the
returned value does not depend on whether the completion publish
succeeded, because `notifyJobCompletion` swallows its own errors and the
`return` sits in the `finally` block (worker.py:269-289, 423-443). -/
theorem c10_processJob_total (job : Option String) (jt : String) (p : Payload) (m : Metadata)
    (o : JobOracle) (fault : Option String) (publishOk : Bool) (now : Nat) :
    (processJob job jt p m o fault publishOk now).1
      = (match processBody jt p (m.fileName.getD "unknown") o fault with
         | Except.ok rs => rs.1
         | Except.error e => fatalWorkerError e)
  ∧ (processJob job jt p m o fault publishOk now).1
      = (processJob job jt p m o fault true now).1 := by
  constructor
  · cases h : processBody jt p (m.fileName.getD "unknown") o fault <;> simp [processJob, h]
  · rfl

/-- C3: for every job, the executor publishes exactly one completion
event (the `finally` block of worker.py:430-443 runs on every path and
calls `notifyJobCompletion` once, the broker publish itself assumed to
go through), and when the job body raises an uncaught fault the
published event carries success = false and the stringified error —
prefixed `FATAL_WORKER_ERROR: ` — as its result (worker.py:423-428). -/
theorem c3_exactly_one_completion (job : Option String) (jt : String) (p : Payload)
    (m : Metadata) (o : JobOracle) (fault : Option String) (now : Nat) :
    (processJob job jt p m o fault true now).2.length = 1
  ∧ ∀ e, fault = some e →
      (processJob job jt p m o fault true now).2
        = [⟨job.getD "UNKNOWN_JOB", m.jobType.getD jt, m.userId.getD "unknown",
            m.fileName.getD "unknown", false, fatalWorkerError e, now⟩] := by
  constructor
  · simp [processJob, notifyJobCompletion]
  · intro e he
    subst he
    simp [processJob, notifyJobCompletion, processBody]

theorem c3_exactly_one_completion_witness :
    (processJob (some "job-7") "extract" (Payload.files []) ⟨some "u1", some "a.png", some "extract"⟩
        ⟨[], none, none, none⟩ (some "boom") true 42).2
      = [⟨"job-7", "extract", "u1", "a.png", false, "FATAL_WORKER_ERROR: boom", 42⟩] := by
  exact (c3_exactly_one_completion (some "job-7") "extract" (Payload.files [])
    ⟨some "u1", some "a.png", some "extract"⟩ ⟨[], none, none, none⟩ (some "boom") 42).2 "boom" rfl

/-- C8: for every format-class job, the body issues the reformat and
summarize sub-calls and reports success = true whenever it completes
without an uncaught fault, even when one or both sub-calls returned the
sentinel failure (`None`); the result then carries the reformat text
(falling back to the raw input when the sub-call failed) and an empty
summary (worker.py:407-417, 320-328). -/
theorem c8_format_best_effort (raw fileName : String) (pp : List (Option String))
    (ia fa sa : Option String) :
    processBody "format" (Payload.text raw) fileName ⟨pp, ia, fa, sa⟩ none
      = Except.ok (jsonDumpsFormat (pyOrStr fa raw) (pyOrStr sa ""), true)
  ∧ (fa = none → pyOrStr fa raw = raw)
  ∧ (sa = none → pyOrStr sa "" = "") := by
  refine ⟨rfl, ?_, ?_⟩ <;> rintro rfl <;> rfl

theorem c8_format_best_effort_witness :
    processBody "format" (Payload.text "raw body") "doc.txt" ⟨[], none, some "FORMATTED", none⟩ none
      = Except.ok (jsonDumpsFormat "FORMATTED" "", true)
  ∧ pyOrStr (none : Option String) "" = "" := by
  have h := c8_format_best_effort "raw body" "doc.txt" [] none (some "FORMATTED") none
  exact ⟨h.1, h.2.2 rfl⟩

def c1PageOne : String := "The first page of the letter, fully legible text."

def c1PageThree : String := "The third page of the letter, fully legible text."

/-- A 3-page PDF job whose page 2 extraction exhausted its retries
(`callGeminiSafe` returned `None`, so `extractTextFromImageBytes`
returns the unreadable sentinel) while pages 1 and 3 succeeded. -/
def c1Oracle : JobOracle :=
  { pdfPages := [some c1PageOne, none, some c1PageThree],
    imageApi := none, formatApi := none, summarizeApi := none }

def c1File : FileData := { mimeType := some "application/pdf", dataB64 := some "Zm9v" }

/-- C1, counterexample: on a 3-page PDF whose page 2 yields the
unreadable placeholder, the extract branch still reports success = true
(worker.py:384-390 sets `success = True` unconditionally after the page
loop), while the returned text is the in-order concatenation of all
three page blocks, placeholder included — the claim says such a job is
marked failed. -/
theorem c1_pdf_counterexample :
    processBody "extract" (Payload.files [c1File]) "scan.pdf" c1Oracle none
      = Except.ok (extractPdfText "scan.pdf" c1Oracle.pdfPages, true)
  ∧ extractTextFromImageBytes (c1Oracle.pdfPages.getD 1 none) = unreadableSentinel := by
  constructor <;> rfl

/-- C1, amended: for an extract-class job over a PDF, the job is marked
successful whenever the renderer produced at least one page, regardless
of whether any page's extraction yielded the unreadable placeholder; the
returned result is the concatenation of all page blocks in page order
(placeholder pages included); only a PDF that renders to no pages marks
the job failed (worker.py:375-390). -/
theorem c1_pdf_success_amended (fileName d : String) (mt : Option String)
    (pages : List (Option String)) (ia fa sa : Option String)
    (hd : d ≠ "")
    (hpdf : mt.getD "image/png" = "application/pdf" ∨ fileName.toLower.endsWith ".pdf" = true) :
    (pages ≠ [] →
      processBody "extract" (Payload.files [⟨mt, some d⟩]) fileName ⟨pages, ia, fa, sa⟩ none
        = Except.ok (extractPdfText fileName pages, true))
  ∧ (pages = [] →
      processBody "extract" (Payload.files [⟨mt, some d⟩]) fileName ⟨pages, ia, fa, sa⟩ none
        = Except.ok ("--- " ++ fileName ++ " | PDF FAILURE: NO PAGES EXTRACTED ---\n\n", false)) := by
  have hcond : (mt.getD "image/png" == "application/pdf" || fileName.toLower.endsWith ".pdf") = true := by
    rcases hpdf with h | h
    · simp [h]
    · simp [h]
  have hdd : (d == "") = false := by simp [hd]
  constructor
  · intro hp
    cases pages with
    | nil => exact absurd rfl hp
    | cons p ps => simp [processBody, hdd, hcond]
  · rintro rfl
    simp [processBody, hdd, hcond]

theorem c1_pdf_success_amended_witness :
    processBody "extract" (Payload.files [c1File]) "scan.pdf" c1Oracle none
      = Except.ok (extractPdfText "scan.pdf" c1Oracle.pdfPages, true)
  ∧ processBody "extract" (Payload.files [c1File]) "scan.pdf" ⟨[], none, none, none⟩ none
      = Except.ok ("--- " ++ "scan.pdf" ++ " | PDF FAILURE: NO PAGES EXTRACTED ---\n\n", false) := by
  constructor
  · exact (c1_pdf_success_amended "scan.pdf" "Zm9v" (some "application/pdf")
      c1Oracle.pdfPages none none none (by decide) (Or.inl rfl)).1 (by decide)
  · exact (c1_pdf_success_amended "scan.pdf" "Zm9v" (some "application/pdf")
      [] none none none (by decide) (Or.inl rfl)).2 rfl

/-- A pool state in which credential `keyA` has an unexpired cooldown
(until second 100) and credential `keyB` is fresh. -/
def c2St : RedisState :=
  { counters := fun _ => 0,
    cooldownExpiry := fun k => if k == "keyA" then some 100 else none }

/-- C2, counterexample: with the round-robin cursor at 0 the acquire
consults only `keyA`; `keyA` is in cooldown, so the acquire returns
`None` (worker.py:122-124) even though `keyB` is usable — the claim says
cooldown credentials are skipped, the next candidates are tried, and
`None` is returned only when no credential is usable. -/
theorem c2_acquire_counterexample :
    (tryAcquireKey defaultConfig [some "keyA", some "keyB"] c2St 0 10).1 = none
  ∧ usableKey defaultConfig c2St "keyB" 10 = true := by
  constructor <;> rfl

/-- C2, amended: each acquire consults exactly one credential, the one
at the global round-robin cursor over the configured keys (not a
randomized iteration); if that credential is in cooldown the acquire
returns `None` immediately, leaving the store untouched and consulting
no other credential; if it is free, its current-bucket counter is
incremented and compared with the limit — within the limit that
credential is returned, above the limit `None` is returned (after
setting its cooldown) — so `None` can be returned while other
credentials in the pool are usable (worker.py:115-136,
queueManager.py:51-60). -/
theorem c2_acquire_single_candidate (cfg : RateConfig) (keys : List (Option String))
    (st : RedisState) (idx now : Nat) :
    (∀ k idx', getNextExtractionKey keys idx = (some k, idx') →
        cooldownActive st k now = true →
        tryAcquireKey cfg keys st idx now = (none, st, idx'))
  ∧ (∀ k idx', getNextExtractionKey keys idx = (some k, idx') →
        cooldownActive st k now = false →
        st.counters (k, now / cfg.windowSeconds) + 1 ≤ cfg.perKeyLimit →
        (tryAcquireKey cfg keys st idx now).1 = some k)
  ∧ (∀ k idx', getNextExtractionKey keys idx = (some k, idx') →
        cooldownActive st k now = false →
        cfg.perKeyLimit < st.counters (k, now / cfg.windowSeconds) + 1 →
        (tryAcquireKey cfg keys st idx now).1 = none)
  ∧ ((tryAcquireKey cfg keys st idx now).1 = none
      ∨ ∃ k idx', getNextExtractionKey keys idx = (some k, idx')
          ∧ (tryAcquireKey cfg keys st idx now).1 = some k) := by
  refine ⟨?_, ?_, ?_, ?_⟩
  · intro k idx' hsel hcd
    simp [tryAcquireKey, hsel, hcd]
  · intro k idx' hsel hcd hle
    simp [tryAcquireKey, hsel, hcd, hle]
  · intro k idx' hsel hcd hgt
    have hnle : ¬ (st.counters (k, now / cfg.windowSeconds) + 1 ≤ cfg.perKeyLimit) := by omega
    simp [tryAcquireKey, hsel, hcd, hnle]
  · rcases hsel : getNextExtractionKey keys idx with ⟨k?, idx'⟩
    cases k? with
    | none => left; simp [tryAcquireKey, hsel]
    | some k =>
      by_cases hcd : cooldownActive st k now
      · left; simp [tryAcquireKey, hsel, hcd]
      · by_cases hle : st.counters (k, now / cfg.windowSeconds) + 1 ≤ cfg.perKeyLimit
        · right; exact ⟨k, idx', rfl, by simp [tryAcquireKey, hsel, hcd, hle]⟩
        · left; simp [tryAcquireKey, hsel, hcd, hle]

theorem c2_acquire_single_candidate_witness :
    tryAcquireKey defaultConfig [some "keyA", some "keyB"] c2St 0 10 = (none, c2St, 1) := by
  exact (c2_acquire_single_candidate defaultConfig [some "keyA", some "keyB"] c2St 0 10).1
    "keyA" 1 (by decide) (by decide)

/-- C4: (a) per operation — any acquire that increments a credential's
current-bucket counter to a value above the per-key limit returns no
credential and places that same credential in cooldown in that same
operation (worker.py:126-136); (b) over any sequence of acquires whose
times all fall in one window bucket `b`, starting from a bucket with all
counters at zero, no (credential, bucket-b) counter ever exceeds
limit+1, and a counter above the limit always comes with a cooldown
entry whose expiry covers the rest of bucket `b` (this uses the
configured `cooldownSeconds ≥ windowSeconds`, 75 ≥ 60 by default). -/
theorem c4_overflow_triggers_cooldown :
    (∀ (cfg : RateConfig) (keys : List (Option String)) (st : RedisState) (idx now : Nat)
        (k : String) (idx' : Nat),
        getNextExtractionKey keys idx = (some k, idx') →
        cooldownActive st k now = false →
        cfg.perKeyLimit < st.counters (k, now / cfg.windowSeconds) + 1 →
        (tryAcquireKey cfg keys st idx now).1 = none
        ∧ (tryAcquireKey cfg keys st idx now).2.1.counters (k, now / cfg.windowSeconds)
            = st.counters (k, now / cfg.windowSeconds) + 1
        ∧ (tryAcquireKey cfg keys st idx now).2.1.cooldownExpiry k
            = some (now + cfg.cooldownSeconds))
  ∧ (∀ (cfg : RateConfig) (keys : List (Option String)) (ts : List Nat) (b : Nat)
        (st0 : RedisState) (idx0 : Nat),
        0 < cfg.windowSeconds → cfg.windowSeconds ≤ cfg.cooldownSeconds →
        (∀ t ∈ ts, t / cfg.windowSeconds = b) →
        (∀ k, st0.counters (k, b) = 0) →
        ∀ k, (runAcquires cfg keys ts (st0, idx0)).1.counters (k, b) ≤ cfg.perKeyLimit + 1
          ∧ (cfg.perKeyLimit < (runAcquires cfg keys ts (st0, idx0)).1.counters (k, b) →
              ∃ e, (runAcquires cfg keys ts (st0, idx0)).1.cooldownExpiry k = some e
                ∧ (b + 1) * cfg.windowSeconds ≤ e)) := by
  constructor
  · intro cfg keys st idx now k idx' hsel hcd hgt
    have hnle : ¬ (st.counters (k, now / cfg.windowSeconds) + 1 ≤ cfg.perKeyLimit) := by omega
    refine ⟨?_, ?_, ?_⟩ <;> simp [tryAcquireKey, hsel, hcd, hnle, Function.update]
  · intro cfg keys ts b st0 idx0 hW hcw hts h0
    have hinv0 : bucketInv cfg b st0 := by
      intro k
      left
      rw [h0 k]
      exact Nat.zero_le _
    have hinv := runAcquires_bucketInv cfg keys ts b hW hcw hts st0 idx0 hinv0
    intro k
    rcases hinv k with h | ⟨h1, e, he, hbe⟩
    · exact ⟨Nat.le_succ_of_le h, fun hgt => absurd h (by omega)⟩
    · exact ⟨h1, fun _ => ⟨e, he, hbe⟩⟩

/-- A small configuration (limit 2, window 60 s, cooldown 75 s) and a
fresh single-credential pool state used to exercise the C4 theorem on a
concrete overflowing trace. -/
def c4Cfg : RateConfig := { perKeyLimit := 2, windowSeconds := 60, cooldownSeconds := 75 }

def c4StFull : RedisState := { counters := fun _ => 2, cooldownExpiry := fun _ => none }

def c4StZero : RedisState := { counters := fun _ => 0, cooldownExpiry := fun _ => none }

theorem c4_overflow_triggers_cooldown_witness :
    ((tryAcquireKey c4Cfg [some "keyA"] c4StFull 0 5).1 = none
      ∧ (tryAcquireKey c4Cfg [some "keyA"] c4StFull 0 5).2.1.counters ("keyA", 0) = 3
      ∧ (tryAcquireKey c4Cfg [some "keyA"] c4StFull 0 5).2.1.cooldownExpiry "keyA" = some 80)
  ∧ ((runAcquires c4Cfg [some "keyA"] [0, 1, 2, 3, 4] (c4StZero, 0)).1.counters ("keyA", 0) ≤ 3
      ∧ (2 < (runAcquires c4Cfg [some "keyA"] [0, 1, 2, 3, 4] (c4StZero, 0)).1.counters ("keyA", 0) →
          ∃ e, (runAcquires c4Cfg [some "keyA"] [0, 1, 2, 3, 4] (c4StZero, 0)).1.cooldownExpiry "keyA" = some e
            ∧ 60 ≤ e)) := by
  constructor
  · exact c4_overflow_triggers_cooldown.1 c4Cfg [some "keyA"] c4StFull 0 5 "keyA" 0
      (by decide) (by decide) (by decide)
  · exact c4_overflow_triggers_cooldown.2 c4Cfg [some "keyA"] [0, 1, 2, 3, 4] 0 c4StZero 0
      (by decide) (by decide) (by decide) (fun k => rfl) "keyA"

/-- C5: a credential with an unexpired cooldown entry is never returned
by an acquire, and no acquire touches its bucket counters, whatever set
the cooldown (worker.py:121-124); and a cooldown written by the explicit
`markKeyCooldown` operation (worker.py:138-139) stays active for the
full configured duration, so such acquires keep refusing the credential
until the cooldown has elapsed. -/
theorem c5_cooldown_never_returned :
    (∀ (cfg : RateConfig) (keys : List (Option String)) (st : RedisState) (idx now : Nat)
        (k : String),
        cooldownActive st k now = true →
        (tryAcquireKey cfg keys st idx now).1 ≠ some k
        ∧ ∀ b, (tryAcquireKey cfg keys st idx now).2.1.counters (k, b) = st.counters (k, b))
  ∧ (∀ (cfg : RateConfig) (st : RedisState) (k : String) (now d : Nat),
        d < cfg.cooldownSeconds →
        cooldownActive (markKeyCooldown cfg st k now) k (now + d) = true) := by
  constructor
  · intro cfg keys st idx now k hcd
    rcases hsel : getNextExtractionKey keys idx with ⟨k?, idx'⟩
    cases k? with
    | none =>
      constructor
      · simp [tryAcquireKey, hsel]
      · intro b; simp [tryAcquireKey, hsel]
    | some k0 =>
      by_cases hk : k0 = k
      · subst hk
        constructor
        · simp [tryAcquireKey, hsel, hcd]
        · intro b; simp [tryAcquireKey, hsel, hcd]
      · by_cases hcd0 : cooldownActive st k0 now
        · constructor
          · simp [tryAcquireKey, hsel, hcd0]
          · intro b; simp [tryAcquireKey, hsel, hcd0]
        · have hne : ∀ b, (k, b) ≠ (k0, now / cfg.windowSeconds) := by
            intro b
            simp [Ne.symm hk]
          by_cases hle : st.counters (k0, now / cfg.windowSeconds) + 1 ≤ cfg.perKeyLimit
          · constructor
            · simp [tryAcquireKey, hsel, hcd0, hle]
              exact hk
            · intro b
              simp [tryAcquireKey, hsel, hcd0, hle, Function.update, hne b]
          · constructor
            · simp [tryAcquireKey, hsel, hcd0, hle]
            · intro b
              simp [tryAcquireKey, hsel, hcd0, hle, Function.update, hne b]
  · intro cfg st k now d hd
    simp [markKeyCooldown, cooldownActive, Function.update]
    omega

theorem c5_cooldown_never_returned_witness :
    ((tryAcquireKey defaultConfig [some "keyA", some "keyB"] c2St 0 10).1 ≠ some "keyA"
      ∧ (tryAcquireKey defaultConfig [some "keyA", some "keyB"] c2St 0 10).2.1.counters ("keyA", 0)
          = c2St.counters ("keyA", 0))
  ∧ cooldownActive (markKeyCooldown defaultConfig c4StZero "keyB" 100) "keyB" 174 = true := by
  constructor
  · have h := (c5_cooldown_never_returned.1 defaultConfig [some "keyA", some "keyB"] c2St 0 10
      "keyA" (by decide))
    exact ⟨h.1, h.2 0⟩
  · exact c5_cooldown_never_returned.2 defaultConfig c4StZero "keyB" 100 74 (by decide)

lemma getNextExtractionKey_mem (keys : List (Option String)) (idx : Nat) (k : String) (idx' : Nat)
    (hsel : getNextExtractionKey keys idx = (some k, idx')) : k ∈ keys.filterMap id := by
  unfold getNextExtractionKey at hsel
  split at hsel
  · simp at hsel
  · rw [Prod.mk.injEq] at hsel
    exact List.get?_mem hsel.1

lemma tryAcquireKey_all_cooled (cfg : RateConfig) (keys : List (Option String))
    (st : RedisState) (idx now : Nat)
    (hall : ∀ k ∈ keys.filterMap id, cooldownActive st k now = true) :
    (tryAcquireKey cfg keys st idx now).1 = none
    ∧ (tryAcquireKey cfg keys st idx now).2.1 = st := by
  rcases hsel : getNextExtractionKey keys idx with ⟨k?, idx'⟩
  cases k? with
  | none => constructor <;> simp [tryAcquireKey, hsel]
  | some k =>
    have hcd := hall k (getNextExtractionKey_mem keys idx k idx' hsel)
    constructor <;> simp [tryAcquireKey, hsel, hcd]

/-- C6, counterexample: `QueueAwareAPIManager` exposes no all-exhausted
query, and when every credential in the pool is in unexpired cooldown
(the situation `allExhausted()` would report, modelled by
`allExhaustedSpec`), the executor loop does not back off slotless: each
of its attempts still acquires a concurrency slot first
(worker.py:165), only then discovers that no credential is available,
and releases the slot — here 3 attempts acquire 3 slots, refuting
"back off ... without acquiring a concurrency slot". -/
def c6St : RedisState := { counters := fun _ => 0, cooldownExpiry := fun _ => some 1000 }

def c6S0 : ExecState := { redis := c6St, idx := 0, acquires := 0, releases := 0 }

theorem c6_all_exhausted_counterexample :
    allExhaustedSpec [some "keyA", some "keyB"] c6St 0 = true
  ∧ (callGeminiSafeRL defaultConfig [some "keyA", some "keyB"] (fun _ => true)
      (fun _ => ApiOutcome.empty) (fun _ => 0) 3 c6S0).2.acquires = 3
  ∧ (callGeminiSafeRL defaultConfig [some "keyA", some "keyB"] (fun _ => true)
      (fun _ => ApiOutcome.empty) (fun _ => 0) 3 c6S0).1 = none := by
  refine ⟨rfl, rfl, rfl⟩

/-- C6, amended: the pool exposes no `allExhausted` operation; when
every credential of the pool is in unexpired cooldown at every attempt
time, the executor loop consumes its attempts by acquiring and releasing
one concurrency slot per attempt (sleeping a short randomized delay in
between, worker.py:174-176 — not a capped exponential backoff), leaves
the rate-limiter state untouched, and finally returns the sentinel
`None` (worker.py:156-230). -/
theorem c6_no_allexhausted_backoff (cfg : RateConfig) (keys : List (Option String))
    (slotOk : Nat → Bool) (api : Nat → ApiOutcome) (times : Nat → Nat) (fuel : Nat)
    (s : ExecState)
    (hslot : ∀ n, slotOk n = true)
    (hall : ∀ k ∈ keys.filterMap id, ∀ n, cooldownActive s.redis k (times n) = true) :
    (callGeminiSafeRL cfg keys slotOk api times fuel s).1 = none
    ∧ (callGeminiSafeRL cfg keys slotOk api times fuel s).2.redis = s.redis
    ∧ (callGeminiSafeRL cfg keys slotOk api times fuel s).2.acquires = s.acquires + fuel
    ∧ (callGeminiSafeRL cfg keys slotOk api times fuel s).2.releases = s.releases + fuel := by
  induction fuel generalizing s with
  | zero => simp [callGeminiSafeRL]
  | succ n ih =>
    have hc := tryAcquireKey_all_cooled cfg keys s.redis s.idx (times n)
      (fun k hk => hall k hk n)
    rcases h : tryAcquireKey cfg keys s.redis s.idx (times n) with ⟨res, st', idx'⟩
    have hres : res = none := by have := hc.1; rw [h] at this; exact this
    have hst : st' = s.redis := by have := hc.2; rw [h] at this; exact this
    subst hres hst
    have hstep : callGeminiSafeRL cfg keys slotOk api times (n + 1) s
        = callGeminiSafeRL cfg keys slotOk api times n
            ⟨s.redis, idx', s.acquires + 1, s.releases + 1⟩ := by
      simp [callGeminiSafeRL, hslot n, h]
    have := ih ⟨s.redis, idx', s.acquires + 1, s.releases + 1⟩
      (fun k hk m => hall k hk m)
    rw [hstep]
    refine ⟨this.1, this.2.1, ?_, ?_⟩
    · rw [this.2.2.1]
      show s.acquires + 1 + n = s.acquires + (n + 1)
      omega
    · rw [this.2.2.2]
      show s.releases + 1 + n = s.releases + (n + 1)
      omega

theorem c6_no_allexhausted_backoff_witness :
    (callGeminiSafeRL defaultConfig [some "keyA", some "keyB"] (fun _ => true)
      (fun _ => ApiOutcome.empty) (fun _ => 0) 3 c6S0).1 = none
  ∧ (callGeminiSafeRL defaultConfig [some "keyA", some "keyB"] (fun _ => true)
      (fun _ => ApiOutcome.empty) (fun _ => 0) 3 c6S0).2.releases = 3 := by
  have h := c6_no_allexhausted_backoff defaultConfig [some "keyA", some "keyB"]
    (fun _ => true) (fun _ => ApiOutcome.empty) (fun _ => 0) 3 c6S0
    (fun _ => rfl) (by intro k hk n; fin_cases hk <;> rfl)
  exact ⟨h.1, h.2.2.2⟩

lemma callGeminiSafeSlots_balance (o : Nat → AttemptSpec)
    (h : ∀ n, (o n).keyStep ≠ KeyStep.keyRaise) :
    ∀ (fuel a r : Nat),
      (callGeminiSafeSlots o fuel (a, r)).2.1 + r = (callGeminiSafeSlots o fuel (a, r)).2.2 + a := by
  intro fuel
  induction fuel with
  | zero =>
    intro a r
    simp only [callGeminiSafeSlots]
    omega
  | succ n ih =>
    intro a r
    by_cases hs : (o n).slotOk
    · cases hks : (o n).keyStep with
      | gotKey =>
        by_cases hr : (o n).apiReturns
        · simp [callGeminiSafeSlots, hs, hks, hr]
          omega
        · have := ih (a + 1) (r + 1)
          simp [callGeminiSafeSlots, hs, hks, hr]
          omega
      | noKey =>
        have := ih (a + 1) (r + 1)
        simp [callGeminiSafeSlots, hs, hks]
        omega
      | keyRaise => exact absurd hks (h n)
    · have := ih a r
      simp [callGeminiSafeSlots, hs]
      omega

/-- C7, counterexample: one attempt in which the semaphore slot is
acquired and the key-acquisition step then raises (e.g. a Redis
connection error inside `tryAcquireKey`, worker.py:171): the exception
reaches the bare `except`/`pass` of worker.py:225-227, which sits
outside the inner `try`/`finally`, so the slot is never released — one
acquire, zero releases, refuting "the number of releases equals the
number of successful acquires regardless of which branch was taken". -/
def c7RaiseOracle : Nat → AttemptSpec :=
  fun _ => { slotOk := true, keyStep := KeyStep.keyRaise, apiReturns := false, apiText := "" }

theorem c7_slot_leak_counterexample :
    callGeminiSafeSlots c7RaiseOracle 1 (0, 0) = (none, 1, 0) ∧ (1 : Nat) ≠ 0 := by
  constructor
  · rfl
  · decide

/-- C7, amended: every acquired concurrency slot is released on the
success, retryable-failure, no-credential and retry-exhaustion exit
paths (worker.py:173, 222-223); but when the key-acquisition step itself
raises, the exception is swallowed at worker.py:225-227 without a
release and that slot leaks — so releases equal acquires exactly when no
attempt's key-acquisition step raised. -/
theorem c7_slot_release_balance (o : Nat → AttemptSpec) (fuel : Nat)
    (h : ∀ n, (o n).keyStep ≠ KeyStep.keyRaise) :
    (callGeminiSafeSlots o fuel (0, 0)).2.1 = (callGeminiSafeSlots o fuel (0, 0)).2.2 := by
  have := callGeminiSafeSlots_balance o h fuel 0 0
  omega

def c7NoKeyOracle : Nat → AttemptSpec :=
  fun _ => { slotOk := true, keyStep := KeyStep.noKey, apiReturns := false, apiText := "" }

theorem c7_slot_release_balance_witness :
    (callGeminiSafeSlots c7NoKeyOracle 4 (0, 0)).2.1
      = (callGeminiSafeSlots c7NoKeyOracle 4 (0, 0)).2.2 := by
  exact c7_slot_release_balance c7NoKeyOracle 4 (by intro n; simp [c7NoKeyOracle])
